import Mathlib

/-!
Verification development for an autonomous social-media posting agent.

The definitions below are shallow embeddings of the Python sources:
  services/autopost.py, services/mentions.py, services/unified_agent.py,
  services/tier_manager.py, services/twitter.py, services/database.py,
  tools/unified/create_post.py, tools/unified/create_reply.py,
  tools/unified/get_mentions.py, tools/unified/finish_cycle.py.
Python strings are modelled as lists of unicode characters, Python ints as
Int, floats produced by division as exact rationals, and fallible code as
Except values whose error constructor stands for a raised exception.
-/

namespace Purple

/-- JSON-like Python value, as produced by json.loads on model output.
Non-integral numbers (floats) are not needed by any theorem here and are
omitted; dictionaries are association lists with string keys, matching
JSON objects. -/
inductive PyVal where
  | none : PyVal
  | bool (b : Bool) : PyVal
  | int (n : Int) : PyVal
  | str (s : String) : PyVal
  | list (xs : List PyVal) : PyVal
  | dict (kvs : List (String × PyVal)) : PyVal
deriving Repr

/-- Python dict.get(key) on a JSON object: first binding wins, absent key
gives Python None. -/
def pyGet (kvs : List (String × PyVal)) (key : String) : PyVal :=
  match kvs with
  | [] => PyVal.none
  | (k, v) :: rest => if k == key then v else pyGet rest key

/-- Python dict.get(key, default) on a JSON object. -/
def pyGetD (kvs : List (String × PyVal)) (key : String) (d : PyVal) : PyVal :=
  match kvs with
  | [] => d
  | (k, v) :: rest => if k == key then v else pyGetD rest key d

/-- Membership test of a Python value in a dict keyed by strings, as in
the expression tool_name not in TOOLS of autopost.py line 73.  Python
hashes the candidate first, so an unhashable value (a list or a dict)
raises TypeError; hashable non-strings are simply not equal to any
string key. -/
def pyMemStr (v : PyVal) (keys : List String) : Except String Bool :=
  match v with
  | PyVal.list _ => Except.error "TypeError: unhashable type: list"
  | PyVal.dict _ => Except.error "TypeError: unhashable type: dict"
  | PyVal.str s => Except.ok (keys.contains s)
  | _ => Except.ok false

/-- One sanitized plan step, the record appended at autopost.py line 83. -/
structure SanStep where
  tool : String
  params : PyVal
deriving Repr

/-- Loop body of AutoPostService._sanitize_plan (autopost.py lines 64-87):
walks the proposed steps, skips non-dict elements, skips unknown tools
(raising TypeError on unhashable tool names exactly as the Python
membership test does), drops duplicate generate_image steps, and stops
once three steps are accepted. -/
def sanLoop (adm : List String) : List PyVal → List SanStep → Bool →
    Except String (List SanStep)
  | [], acc, _ => Except.ok acc
  | step :: rest, acc, hasImg =>
    match step with
    | PyVal.dict kvs =>
      let toolName := pyGet kvs "tool"
      let params := pyGetD kvs "params" (PyVal.dict [])
      match pyMemStr toolName adm with
      | Except.error e => Except.error e
      | Except.ok mem =>
        if !mem then sanLoop adm rest acc hasImg
        else
          match toolName with
          | PyVal.str tn =>
            if tn == "generate_image" && hasImg then
              sanLoop adm rest acc hasImg
            else
              let hasImg2 := hasImg || tn == "generate_image"
              let acc2 := acc ++ [⟨tn, params⟩]
              if acc2.length ≥ 3 then Except.ok acc2
              else sanLoop adm rest acc2 hasImg2
          | _ => sanLoop adm rest acc hasImg
    | _ => sanLoop adm rest acc hasImg

/-- AutoPostService._sanitize_plan (autopost.py lines 56-96): a non-list
plan is stripped to the empty plan; otherwise the loop above runs and the
accepted steps are reordered so that the at-most-one generate_image step
comes last (lines 89-93). -/
def sanitizePlan (adm : List String) (plan : PyVal) : Except String (List SanStep) :=
  match plan with
  | PyVal.list steps =>
    match sanLoop adm steps [] false with
    | Except.error e => Except.error e
    | Except.ok sanitized =>
      let imageSteps := sanitized.filter (fun s => s.tool == "generate_image")
      let nonImageSteps := sanitized.filter (fun s => !(s.tool == "generate_image"))
      Except.ok (nonImageSteps ++ imageSteps.take 1)
  | _ => Except.ok []

/-- Admissible tool set of the legacy registry (tools/registry.py line 226)
with both feature flags enabled: the three shared tools plus the legacy
image tool. -/
def legacyTools : List String :=
  ["get_conversation_history", "get_twitter_profile", "web_search", "generate_image"]

/-- Hashability of a Python value: JSON containers (lists and dicts) are
unhashable and make a dict membership test raise TypeError; every other
JSON value is hashable. -/
def pyHashable : PyVal → Bool
  | PyVal.list _ => false
  | PyVal.dict _ => false
  | _ => true

/-- Precondition on one proposed plan step under which the sanitizer loop
cannot raise: either the step is not a dict (it is skipped before the
membership test) or its tool field is hashable. -/
def stepToolHashable : PyVal → Bool
  | PyVal.dict kvs => pyHashable (pyGet kvs "tool")
  | _ => true

/-- Precondition on a whole proposed plan under which the sanitizer
cannot raise: a non-list plan is stripped before any membership test, and
in a list plan every step satisfies the step precondition. -/
def planToolsHashable : PyVal → Bool
  | PyVal.list steps => steps.all stepToolHashable
  | _ => true

/-- Discriminator for a sanitizer run that returned instead of raising. -/
def sanReturned : Except String (List SanStep) → Bool
  | Except.ok _ => true
  | Except.error _ => false

/-! Capability gate: services/tier_manager.py. -/

/-- Mutable state of TierManager (tier_manager.py lines 71-96).  Fields not
touched by the claims under study (rate-limit headers, the database
handle) are omitted; last_tier_check is modelled as an optional abstract
timestamp. -/
structure TierState where
  tier : Option String
  projectId : PyVal
  project_cap : Int
  project_usage : Int
  capResetDay : PyVal
  lastTierCheck : Option Nat
  is_initialized : Bool
  is_paused : Bool
  pauseReason : Option String
deriving Repr

/-- TierManager.get_usage_percent (tier_manager.py lines 213-217), with the
float arithmetic carried out exactly in the rationals. -/
def getUsagePercent (s : TierState) : ℚ :=
  if s.project_cap ≤ 0 then 0
  else ((s.project_usage : ℚ) / (s.project_cap : ℚ)) * 100

/-- TierManager.can_post (tier_manager.py lines 232-249). -/
def canPost (s : TierState) : Bool × Option String :=
  if !s.is_initialized then (true, Option.none)
  else if s.is_paused then (false, s.pauseReason)
  else if getUsagePercent s ≥ 100 then (false, some "monthly_cap_reached")
  else (true, Option.none)

/-- TierManager._check_usage_warnings (tier_manager.py lines 219-230): the
only state change is the pause at or above 100 percent usage; the 80 and
90 percent branches only log. -/
def checkUsageWarnings (s : TierState) : TierState :=
  if getUsagePercent s ≥ 100 then
    { s with is_paused := true, pauseReason := some "monthly_cap_reached" }
  else s

/-- Python int() conversion applied to a JSON field (tier_manager.py lines
149-150): ints pass through, bools coerce, digit-only strings parse, and
everything else raises. -/
def pyToInt (v : PyVal) : Except String Int :=
  match v with
  | PyVal.int n => Except.ok n
  | PyVal.bool b => Except.ok (if b then 1 else 0)
  | PyVal.str s =>
    if s.length > 0 && s.data.all Char.isDigit then Except.ok ((s.toNat?.getD 0 : Nat) : Int)
    else Except.error "ValueError: invalid literal for int"
  | _ => Except.error "TypeError: int argument must be a number"

/-- Outcome of the HTTP GET against the usage endpoint as seen by
detect_tier: either the request itself raised, or a response arrived with
a status code and a body whose JSON decoding may itself fail. -/
inductive FetchOutcome where
  | fail (msg : String)
  | http (status : Nat) (body : Except String PyVal)

/-- Structured result dictionary returned by detect_tier, reduced to its
discriminating shape. -/
inductive DetectResult where
  | unknownErr (msg : String)
  | free403
  | success (tier : String)
deriving Repr, DecidableEq

/-- Tier name computed from the project cap (tier_manager.py lines 155-164). -/
def tierFromCap (cap : Int) : String :=
  if cap ≥ 10000000 then "enterprise"
  else if cap ≥ 1000000 then "pro"
  else if cap ≥ 10000 then "basic"
  else if cap ≤ 500 then "free"
  else "unknown"

/-- TierManager.detect_tier (tier_manager.py lines 119-185) as a state
transition.  A 403 sets the tier to free and returns; any other 4xx or
5xx status makes raise_for_status raise, which the enclosing except block
turns into an unchanged-state unknown result; a schema failure raises at
the first field that fails int conversion, so assignments made before
that point persist. -/
def detectTier (s : TierState) (now : Nat) (r : FetchOutcome) :
    TierState × DetectResult :=
  match r with
  | FetchOutcome.fail msg => (s, DetectResult.unknownErr msg)
  | FetchOutcome.http status body =>
    if status == 403 then ({ s with tier := some "free" }, DetectResult.free403)
    else if status ≥ 400 then (s, DetectResult.unknownErr "HTTPStatusError")
    else
      match body with
      | Except.error m => (s, DetectResult.unknownErr m)
      | Except.ok data =>
        match data with
        | PyVal.dict kvs =>
          match pyGetD kvs "data" (PyVal.dict []) with
          | PyVal.dict u =>
            match pyToInt (pyGetD u "project_cap" (PyVal.int 0)) with
            | Except.error m => (s, DetectResult.unknownErr m)
            | Except.ok cap1 =>
              let s1 := { s with project_cap := cap1 }
              match pyToInt (pyGetD u "project_usage" (PyVal.int 0)) with
              | Except.error m => (s1, DetectResult.unknownErr m)
              | Except.ok use1 =>
                let s2 := { s1 with
                  project_usage := use1,
                  capResetDay := pyGet u "cap_reset_day",
                  projectId := pyGet u "project_id" }
                let s3 := { s2 with
                  tier := some (tierFromCap cap1), lastTierCheck := some now }
                let s4 := checkUsageWarnings s3
                (s4, DetectResult.success (tierFromCap cap1))
          | _ => (s, DetectResult.unknownErr "AttributeError")
        | _ => (s, DetectResult.unknownErr "AttributeError")

/-- Daily post and reply limits per tier (tier_manager.py lines 27-56). -/
def tierFeaturesDaily (tier : String) : Nat × Nat :=
  if tier == "free" then (15, 0)
  else if tier == "basic" then (50, 50)
  else if tier == "pro" then (500, 500)
  else if tier == "enterprise" then (1000, 1000)
  else (15, 0)

/-- Mentions availability per tier (tier_manager.py lines 27-56). -/
def tierFeaturesMentions (tier : String) : Bool :=
  tier == "basic" || tier == "pro" || tier == "enterprise"

/-- TierManager.get_daily_limits (tier_manager.py lines 272-286): a None
tier falls back to free, an unknown tier name falls back to the free
feature set. -/
def getDailyLimits (s : TierState) : Nat × Nat :=
  tierFeaturesDaily (s.tier.getD "free")

/-- TierManager.can_use_mentions (tier_manager.py lines 251-270), with the
allow_mentions setting passed explicitly. -/
def canUseMentions (allowMentions : Bool) (s : TierState) : Bool × Option String :=
  if !allowMentions then (false, some "mentions_disabled_in_settings")
  else if !s.is_initialized then (true, Option.none)
  else
    let t := match s.tier with | some t => t | Option.none => "None"
    if !(tierFeaturesMentions t) then
      (false, some ("mentions_not_available_on_" ++ t ++ "_tier"))
    else (true, Option.none)

/-! Continuous-mode agent loop: services/unified_agent.py. -/

/-- Containment of a pattern at the head of a character list. -/
def leadsWith : List Char → List Char → Bool
  | [], _ => true
  | _ :: _, [] => false
  | p :: ps, c :: cs => p == c && leadsWith ps cs

/-- Python substring containment pat in s, on code-point lists. -/
def hasSub (pat : List Char) : List Char → Bool
  | [] => pat.isEmpty
  | c :: cs => leadsWith pat (c :: cs) || hasSub pat cs

/-- Python substring containment on strings. -/
def strHas (s pat : String) : Bool := hasSub pat.data s.data

/-- Python str.lower(), modelled per code point. -/
def pyLower (s : String) : String := String.mk (s.data.map Char.toLower)

/-- One scripted step of the continuous loop: the tool name the model
chose at this iteration and the result string the executed tool produced
(the value _execute_tool returns, which is always a string and never a
raised exception). -/
structure ScriptStep where
  tool : String
  result : String

/-- Structured summary returned by UnifiedAgent.run on the non-error path
(unified_agent.py lines 264-270); the wall-clock duration field is
dropped. -/
structure LoopResult where
  success : Bool
  posts : Nat
  replies : Nat
  iterations : Nat
deriving Repr, DecidableEq

/-- Stop condition checked after executing a tool (unified_agent.py line
253). -/
def stopsAt (script : Nat → ScriptStep) (i : Nat) : Prop :=
  (script i).tool = "finish_cycle" ∨ strHas (script i).result "CYCLE_FINISHED" = true

instance (script : Nat → ScriptStep) (i : Nat) : Decidable (stopsAt script i) := by
  unfold stopsAt; infer_instance

/-- Per-iteration counter updates of _execute_tool (unified_agent.py lines
171-176): a create_post or create_reply whose result mentions success
bumps the respective counter. -/
def bumpCounts (st : ScriptStep) (posts replies : Nat) : Nat × Nat :=
  if st.tool == "create_post" && strHas (pyLower st.result) "successfully" then
    (posts + 1, replies)
  else if st.tool == "create_reply" && strHas (pyLower st.result) "successfully" then
    (posts, replies + 1)
  else (posts, replies)

/-- Tool-use loop of UnifiedAgent.run (unified_agent.py lines 231-257):
iteration counts 1-based, the loop body runs while the previous count is
below the cap (modelled as remaining fuel), and the loop breaks right
after a finish_cycle call or a result containing CYCLE_FINISHED. -/
def runLoopAux (script : Nat → ScriptStep) :
    Nat → Nat → Nat → Nat → LoopResult
  | iter, posts, replies, 0 => ⟨true, posts, replies, iter⟩
  | iter, posts, replies, fuel + 1 =>
    if stopsAt script (iter + 1) then
      ⟨true, (bumpCounts (script (iter + 1)) posts replies).1,
        (bumpCounts (script (iter + 1)) posts replies).2, iter + 1⟩
    else runLoopAux script (iter + 1)
      (bumpCounts (script (iter + 1)) posts replies).1
      (bumpCounts (script (iter + 1)) posts replies).2 fuel

/-- UnifiedAgent.run with the model and the tool executor abstracted into
a script: max_iterations is 30 (unified_agent.py line 231). -/
def runLoop (script : Nat → ScriptStep) : LoopResult :=
  runLoopAux script 0 0 0 30

/-- finish_cycle tool (tools/unified/finish_cycle.py lines 25-37). -/
def finishCycleTool (reasoning : String) : String :=
  "CYCLE_FINISHED: " ++ reasoning

/-! Mention ledger: services/database.py and tools/unified/get_mentions.py. -/

/-- Row of the mentions table (database.py lines 60-71). -/
structure MentionRow where
  tweet_id : String
  author_handle : String
  author_text : String
  our_reply : Option String
  action : String
  tools_used : Option String
deriving Repr, DecidableEq

/-- State of the mentions table, in insertion order. -/
abbrev MentionsDb := List MentionRow

/-- Database.save_mention (database.py lines 203-244): a plain INSERT into
a table whose tweet_id column carries a UNIQUE constraint, so a second
row with the same tweet_id raises a unique violation instead of
inserting. -/
def saveMention (db : MentionsDb) (tid author text : String)
    (reply : Option String) (action : String) (tools : Option String) :
    Except String MentionsDb :=
  if db.any (fun r => r.tweet_id == tid) then
    Except.error "UniqueViolationError: duplicate key value violates unique constraint"
  else Except.ok (db ++ [⟨tid, author, text, reply, action, tools⟩])

/-- Database.mention_exists (database.py lines 359-384): with
include_pending false a pending row does not count as existing. -/
def mentionExists (db : MentionsDb) (tid : String) (includePending : Bool) : Bool :=
  db.any (fun r => r.tweet_id == tid && (includePending || !(r.action == "pending")))

/-- Pending store performed by the get_mentions tool for one fetched
mention (tools/unified/get_mentions.py lines 73-87): skip the save only
when the mention exists with a non-pending disposition, otherwise insert
it with disposition pending. -/
def storePendingMention (db : MentionsDb) (tid author text : String) :
    Except String MentionsDb :=
  if mentionExists db tid false then Except.ok db
  else saveMention db tid author text Option.none "pending" Option.none

/-! Mention handler plan validation: services/mentions.py. -/

/-- One step of a mention-handler plan: step.get("tool") may be absent,
which Python renders as None. -/
structure VStep where
  tool : Option String
  params : PyVal

/-- String rendering of a possibly-missing tool name inside the Python
error message f-string. -/
def showTool : Option String → String
  | some t => t
  | Option.none => "None"

/-- Loop of MentionAgentHandler._validate_plan (mentions.py lines 61-73),
walking the indexed steps. -/
def validateLoop (adm : List String) (total : Nat) :
    List VStep → Nat → Bool → Except String Unit
  | [], _, _ => Except.ok ()
  | step :: rest, i, hasImg =>
    let mem := match step.tool with
      | some t => adm.contains t
      | Option.none => false
    if !mem then Except.error ("Unknown tool: " ++ showTool step.tool)
    else if step.tool == some "generate_image" then
      if hasImg then Except.error "Multiple generate_image calls not allowed"
      else if !(i == total - 1) then
        Except.error "generate_image must be the last step in plan"
      else validateLoop adm total rest (i + 1) true
    else validateLoop adm total rest (i + 1) hasImg

/-- MentionAgentHandler._validate_plan (mentions.py lines 49-75): raises
ValueError on an over-long plan, an unknown tool, a duplicate image step
or a misplaced image step; the raised message is the error value. -/
def validatePlan (adm : List String) (plan : List VStep) : Except String Unit :=
  if plan.length > 3 then
    Except.error ("Plan too long: " ++ toString plan.length ++ " steps (max 3)")
  else validateLoop adm plan.length plan 0 false

/-- Outcome of the plan-validation gate at the start of
MentionAgentHandler._process_single_mention (mentions.py lines 287-293). -/
inductive MentionGate where
  | failure (err : String)
  | proceeds
deriving Repr, DecidableEq

/-- Plan gate of _process_single_mention: a non-empty plan is validated
and a ValueError is caught and returned as a per-mention failure result
with an invalid_plan error string (mentions.py lines 288-293). -/
def mentionPlanGate (adm : List String) (plan : List VStep) : MentionGate :=
  if plan.isEmpty then MentionGate.proceeds
  else
    match validatePlan adm plan with
    | Except.error e => MentionGate.failure ("invalid_plan: " ++ e)
    | Except.ok _ => MentionGate.proceeds

/-- Batch summary assembled at the end of process_mentions_batch
(mentions.py lines 193-208): once the per-mention phase is reached the
cycle summary always carries success true, whatever the individual
results were, and counts only the successful ones as processed. -/
def batchSummary (results : List MentionGate) : Bool × Nat :=
  (true, (results.filter (fun r => r == MentionGate.proceeds)).length)

/-! Autopost text finalization and publish: services/autopost.py. -/

/-- Python str.strip() on a code-point list: whitespace removed from both
ends. -/
def pyStrip (s : List Char) : List Char :=
  ((s.dropWhile Char.isWhitespace).reverse.dropWhile Char.isWhitespace).reverse

/-- Fallback tweets of autopost.py lines 28-36, as code-point lists. -/
def FALLBACK_TWEETS : List (List Char) :=
  [("Keep going, little one. Even in the darkest storms, you\x27re never alone. 🌙🐾").data,
   ("A quiet guardian watches over you, even in the rain. 🌧️🐱").data,
   ("Stay strong — every paw print leaves a mark in the heart. 🐾❤️").data,
   ("You are brave, even when the thunder shakes the glass. ⚡🐾").data,
   ("Soft paws, warm heart, never alone. 🌙🐾").data,
   ("Even small ones shine bright. Don\x27t be afraid of the storm. ✨🐾").data,
   ("Silent support is the loudest love. 🐾💛").data]

/-- Text finalization of AutoPostService.run (autopost.py lines 224-228):
strip, hard slice to 280 code points, and on emptiness substitute the
random fallback choice, itself sliced to 280.  The random.choice call is
modelled by the explicit index. -/
def finalizePostText (raw : List Char) (pick : Fin 7) : List Char :=
  let t := (pyStrip raw).take 280
  if t.isEmpty then (FALLBACK_TWEETS.getD pick.val []).take 280 else t

/-- Publish-and-save tail of AutoPostService.run (autopost.py lines
243-257): twitter.post is called exactly once with the finalized text; on
success db.save_post stores the same text and the cycle result carries
it; on a raised error the outer handler reports failure and nothing is
saved.  The first component records the arguments of the publish calls
made, the second the saved texts, the third the structured outcome. -/
def autopostPublishTail (text : List Char) (oracle : Nat → Except String String) :
    List (List Char) × List (List Char) × Except String String :=
  match oracle 0 with
  | Except.ok tweetId => ([text], [text], Except.ok tweetId)
  | Except.error e => ([text], [], Except.error e)

/-- Count of twitter.post attempts the publish path performs before the
cycle reports its outcome: the source calls self.twitter.post once at
autopost.py line 244 with no retry loop around it. -/
def autopostPublishAttempts (text : List Char) (oracle : Nat → Except String String) : Nat :=
  (autopostPublishTail text oracle).1.length

/-- Read path of process_mentions_batch (mentions.py lines 112-116):
twitter.get_mentions is called once inside a try block and a raised error
is reported as the cycle result without any retry.  The first component
records the attempt indices at which the fetch oracle was invoked. -/
def mentionsFetchTail (oracle : Nat → Except String (List String)) :
    List Nat × Except String (List String) :=
  ([0], oracle 0)

/-! Publishing tools: tools/unified/create_post.py and create_reply.py. -/

/-- Truncation applied by create_post (lines 72-73) and create_reply
(lines 105-106): texts longer than 280 code points become their first 277
plus a three-dot ellipsis. -/
def toolTruncate (t : List Char) : List Char :=
  if t.length > 280 then t.take 277 ++ ("...").data else t

/-- Row of the actions table as far as the quota logic observes it:
its kind, its text, and whether it was created today. -/
structure ActionRow where
  action_type : String
  text : List Char
  isToday : Bool
deriving Repr

/-- Database.count_actions_today with a kind filter (database.py lines
637-662). -/
def countActionsToday (db : List ActionRow) (kind : String) : Nat :=
  (db.filter (fun r => r.isToday && r.action_type == kind)).length

/-- Side-effecting world shared by the publishing tools: the actions
ledger and the list of texts passed to platform publish calls, whether or
not the call succeeded. -/
structure ToolWorld where
  actions : List ActionRow
  published : List (List Char)
deriving Repr

/-- Result of one tool invocation: the returned string and the world
after it. -/
structure ToolOutcome where
  result : String
  world : ToolWorld
deriving Repr

/-- create_post (tools/unified/create_post.py lines 33-107) with image
generation disabled by the caller, media upload elided, and the platform
post call abstracted into an oracle.  The daily limit comes from the tier
manager found in kwargs, defaulting to 15 when absent; the quota check
precedes every side effect. -/
def createPost (text : List Char) (tm : Option TierState)
    (postOracle : Except String String) (w : ToolWorld) : ToolOutcome :=
  let t := pyStrip text
  let postsToday := countActionsToday w.actions "post"
  let dailyLimit := match tm with
    | some s => (getDailyLimits s).1
    | Option.none => 15
  if postsToday ≥ dailyLimit then
    ⟨"Error: Daily post limit reached (" ++ toString dailyLimit ++ "). Cannot post.", w⟩
  else
    let t2 := toolTruncate t
    match postOracle with
    | Except.error e => ⟨"Error posting: " ++ e, { w with published := w.published ++ [t2] }⟩
    | Except.ok tweetId =>
      ⟨"Posted successfully! Tweet ID: " ++ tweetId ++ ". Image: no. Remaining posts today: "
         ++ toString ((dailyLimit : Int) - (postsToday : Int) - 1),
       { actions := w.actions ++ [⟨"post", t2, true⟩],
         published := w.published ++ [t2] }⟩

/-- create_reply (tools/unified/create_reply.py lines 45-162) with image
generation disabled, media elided, the platform reply call abstracted
into an oracle, and the mention-ledger follow-up elided (it happens only
after a successful publish and is not part of the claims about quota
denial).  The named tier_manager parameter is used for the mentions check
at lines 85-88, but line 98 reassigns tier_manager from kwargs.get, and
kwargs never holds that key because the named parameter absorbed it, so
the daily limit computation at line 99 always takes the default 50. -/
def createReply (text : List Char) (rid : String) (allowMentions : Bool)
    (tm : Option TierState) (replyOracle : Except String String) (w : ToolWorld) :
    ToolOutcome :=
  let t := pyStrip text
  let mentionsCheck := match tm with
    | some s => canUseMentions allowMentions s
    | Option.none => (true, Option.none)
  if !mentionsCheck.1 then
    ⟨"Error: " ++ (mentionsCheck.2.getD "None"), w⟩
  else
    let repliesToday := countActionsToday w.actions "reply"
    let dailyLimit : Nat := 50
    if repliesToday ≥ dailyLimit then
      ⟨"Error: Daily reply limit reached (" ++ toString dailyLimit ++ "). Cannot reply.", w⟩
    else
      let t2 := toolTruncate t
      match replyOracle with
      | Except.error e => ⟨"Error replying: " ++ e, { w with published := w.published ++ [t2] }⟩
      | Except.ok _ =>
        ⟨"Replied successfully to " ++ rid ++ "! Image: no. Remaining replies today: "
           ++ toString ((dailyLimit : Int) - (repliesToday : Int) - 1),
         { actions := w.actions ++ [⟨"reply", t2, true⟩],
           published := w.published ++ [t2] }⟩

/-! Helper lemmas about the continuous loop. -/

theorem runLoopAux_success (script : Nat → ScriptStep) :
    ∀ (fuel iter p r : Nat), (runLoopAux script iter p r fuel).success = true := by
  intro fuel
  induction fuel with
  | zero => intro iter p r; rfl
  | succ n ih =>
    intro iter p r
    unfold runLoopAux
    by_cases h : stopsAt script (iter + 1)
    · rw [if_pos h]
    · rw [if_neg h]
      exact ih (iter + 1) _ _

theorem runLoopAux_no_stop (script : Nat → ScriptStep) :
    ∀ (fuel iter p r : Nat),
      (∀ k, iter < k → k ≤ iter + fuel → ¬ stopsAt script k) →
      (runLoopAux script iter p r fuel).iterations = iter + fuel := by
  intro fuel
  induction fuel with
  | zero => intro iter p r _; rfl
  | succ n ih =>
    intro iter p r h
    have h1 : ¬ stopsAt script (iter + 1) := h (iter + 1) (by omega) (by omega)
    unfold runLoopAux
    rw [if_neg h1]
    have h2 := ih (iter + 1) (bumpCounts (script (iter + 1)) p r).1
      (bumpCounts (script (iter + 1)) p r).2
      (fun k hk1 hk2 => h k (by omega) (by omega))
    rw [h2]
    omega

theorem runLoopAux_first_stop (script : Nat → ScriptStep) :
    ∀ (fuel iter p r i : Nat),
      iter < i → i ≤ iter + fuel → stopsAt script i →
      (∀ k, iter < k → k < i → ¬ stopsAt script k) →
      (runLoopAux script iter p r fuel).iterations = i := by
  intro fuel
  induction fuel with
  | zero => intro iter p r i h1 h2 _ _; omega
  | succ n ih =>
    intro iter p r i h1 h2 hs hf
    unfold runLoopAux
    by_cases he : i = iter + 1
    · subst he
      rw [if_pos hs]
    · have hlt : iter + 1 < i := by omega
      have hn : ¬ stopsAt script (iter + 1) := hf (iter + 1) (by omega) hlt
      rw [if_neg hn]
      exact ih (iter + 1) _ _ i hlt (by omega) hs
        (fun k hk1 hk2 => hf k (by omega) hk2)

theorem runLoopAux_le_stop (script : Nat → ScriptStep) :
    ∀ (fuel iter p r j : Nat),
      iter < j → stopsAt script j →
      (runLoopAux script iter p r fuel).iterations ≤ j := by
  intro fuel
  induction fuel with
  | zero => intro iter p r j h _; exact Nat.le_of_lt h
  | succ n ih =>
    intro iter p r j h hs
    unfold runLoopAux
    by_cases h1 : stopsAt script (iter + 1)
    · rw [if_pos h1]
      show iter + 1 ≤ j
      omega
    · rw [if_neg h1]
      have hne : j ≠ iter + 1 := fun he => h1 (he ▸ hs)
      exact ih (iter + 1) _ _ j (by omega) hs

theorem runLoopAux_iter_or_stop (script : Nat → ScriptStep) :
    ∀ (fuel iter p r : Nat),
      (runLoopAux script iter p r fuel).iterations = iter + fuel ∨
      stopsAt script (runLoopAux script iter p r fuel).iterations := by
  intro fuel
  induction fuel with
  | zero => intro iter p r; exact Or.inl rfl
  | succ n ih =>
    intro iter p r
    unfold runLoopAux
    by_cases h1 : stopsAt script (iter + 1)
    · rw [if_pos h1]
      exact Or.inr h1
    · rw [if_neg h1]
      rcases ih (iter + 1) (bumpCounts (script (iter + 1)) p r).1
        (bumpCounts (script (iter + 1)) p r).2 with h | h
      · exact Or.inl (by omega)
      · exact Or.inr h

/-! Helper lemmas about the batch sanitizer. -/

theorem sanLoop_total (adm : List String) :
    ∀ (steps : List PyVal) (acc : List SanStep) (hasImg : Bool),
      (∀ st ∈ steps, stepToolHashable st = true) →
      ∃ l, sanLoop adm steps acc hasImg = Except.ok l := by
  intro steps
  induction steps with
  | nil => intro acc hasImg _; exact ⟨acc, rfl⟩
  | cons st rest ih =>
    intro acc hasImg h
    have hst : stepToolHashable st = true := h st (List.mem_cons_self st rest)
    have hrest : ∀ x ∈ rest, stepToolHashable x = true :=
      fun x hx => h x (List.mem_cons_of_mem st hx)
    cases st with
    | dict kvs =>
      cases hv : pyGet kvs "tool" with
      | list xs => simp [stepToolHashable, pyHashable, hv] at hst
      | dict kvs2 => simp [stepToolHashable, pyHashable, hv] at hst
      | str s =>
        simp only [sanLoop, hv, pyMemStr]
        split
        · exact ih acc hasImg hrest
        · split
          · exact ih acc hasImg hrest
          · split
            · exact ⟨_, rfl⟩
            · exact ih _ _ hrest
      | none =>
        simp only [sanLoop, hv, pyMemStr]
        exact ih acc hasImg hrest
      | bool b =>
        simp only [sanLoop, hv, pyMemStr]
        exact ih acc hasImg hrest
      | int n =>
        simp only [sanLoop, hv, pyMemStr]
        exact ih acc hasImg hrest
    | none => exact ih acc hasImg hrest
    | bool b => exact ih acc hasImg hrest
    | int n => exact ih acc hasImg hrest
    | str s => exact ih acc hasImg hrest
    | list xs => exact ih acc hasImg hrest

theorem sanitizePlan_total (adm : List String) (plan : PyVal)
    (h : planToolsHashable plan = true) :
    sanReturned (sanitizePlan adm plan) = true := by
  cases plan with
  | list steps =>
    have h2 : ∀ st ∈ steps, stepToolHashable st = true := by
      simpa [planToolsHashable, List.all_eq_true] using h
    obtain ⟨l, hl⟩ := sanLoop_total adm steps [] false h2
    simp [sanitizePlan, hl, sanReturned]
  | none => rfl
  | bool b => rfl
  | int n => rfl
  | str s => rfl
  | dict kvs => rfl

/-! Claim theorems. -/

/-- C1: the claim states that the batch-mode plan sanitizer returns, for
every input value of any type, a sanitized plan without raising.  The
code violates this: a plan step whose tool field is a JSON array reaches
the membership test tool_name not in TOOLS at autopost.py line 73 and
Python raises TypeError there because a list is unhashable, so the
sanitizer raises instead of degrading.  This theorem evaluates the
embedded sanitizer at that failing input. -/
theorem sanitize_plan_raises_on_unhashable_tool :
    sanitizePlan legacyTools
      (PyVal.list [PyVal.dict [("tool", PyVal.list [PyVal.str "web_search"])]]) =
    Except.error "TypeError: unhashable type: list" := rfl

/-- C2: the claim states that storing an observed mention as pending is
idempotent and never raises when a row with the same external id already
exists, including a row still in disposition pending.  The code violates
this: mention_exists is called with include_pending false, so a row that
is still pending does not count as existing, and save_mention then runs a
plain INSERT against the UNIQUE tweet_id column, which raises a unique
violation on the second call.  This theorem evaluates the embedded
pending store at that failing input: the first store inserts, the second
store with the same external id and a different author text raises, and
the stored row keeps the author text of the first call. -/
theorem second_pending_store_raises :
    storePendingMention [] "1" "alice" "hello" =
      Except.ok [⟨"1", "alice", "hello", Option.none, "pending", Option.none⟩] ∧
    storePendingMention
        [⟨"1", "alice", "hello", Option.none, "pending", Option.none⟩]
        "1" "bob" "different" =
      Except.error "UniqueViolationError: duplicate key value violates unique constraint" :=
  ⟨rfl, rfl⟩

/-- C6 counterexample: the claim states that plan validation never raises
and that a malformed plan is never surfaced as a failure result of the
processing of an individual mention.  In the mention handler a plan with
a hallucinated tool makes _validate_plan raise ValueError, and
_process_single_mention returns a failure result for that mention with an
invalid_plan error string. -/
theorem invalid_plan_surfaces_as_mention_failure :
    validatePlan legacyTools [⟨some "imaginary_tool", PyVal.dict []⟩] =
      Except.error "Unknown tool: imaginary_tool" ∧
    mentionPlanGate legacyTools [⟨some "imaginary_tool", PyVal.dict []⟩] =
      MentionGate.failure "invalid_plan: Unknown tool: imaginary_tool" :=
  ⟨rfl, rfl⟩

/-- C6 amended: planner malformation is recovered locally by the batch
autopost sanitizer for every proposed plan whose tool fields are hashable
(an unhashable, container-valued tool name instead raises, the failure
recorded under C1): for every such input the sanitizer returns a
sanitized plan rather than raising; in the mention handler, by contrast,
_validate_plan raises ValueError on a hallucinated tool, an over-long
plan, or a duplicate or misplaced image step, and _process_single_mention
catches it and surfaces the malformed plan as a failure result of that
individual mention with an invalid_plan error string; the batch cycle
summary itself still reports success, so malformation is never surfaced
as a failure of the whole mention cycle. -/
theorem planner_malformation_recovery (adm : List String) :
    (∀ plan : PyVal, planToolsHashable plan = true →
      sanReturned (sanitizePlan adm plan) = true) ∧
    (∀ (plan : List VStep) (e : String), validatePlan adm plan = Except.error e →
      mentionPlanGate adm plan = MentionGate.failure ("invalid_plan: " ++ e)) ∧
    (∀ results : List MentionGate, (batchSummary results).1 = true) := by
  refine ⟨fun plan h => sanitizePlan_total adm plan h, ?_, fun results => rfl⟩
  intro plan e h
  have hne : plan.isEmpty = false := by
    cases plan with
    | nil => simp [validatePlan, validateLoop] at h
    | cons a l => rfl
  simp [mentionPlanGate, hne, h]

/-- Concrete malformed-but-hashable plan: one known tool, one
hallucinated tool, one step that is not even a record. -/
def samplePlan : PyVal :=
  PyVal.list [PyVal.dict [("tool", PyVal.str "web_search")],
    PyVal.dict [("tool", PyVal.str "made_up_tool")], PyVal.int 5]

/-- C6 witness: the recovery theorem applied to a concrete malformed plan
with hashable tool fields and to a concrete hallucinated tool in the
mention handler. -/
theorem planner_malformation_recovery_witness :
    sanReturned (sanitizePlan legacyTools samplePlan) = true ∧
    mentionPlanGate legacyTools [⟨some "bad_tool", PyVal.dict []⟩] =
      MentionGate.failure ("invalid_plan: " ++ "Unknown tool: bad_tool") ∧
    (batchSummary [MentionGate.failure "invalid_plan: Unknown tool: bad_tool"]).1 = true :=
  ⟨(planner_malformation_recovery legacyTools).1 samplePlan rfl,
   (planner_malformation_recovery legacyTools).2.1
     [⟨some "bad_tool", PyVal.dict []⟩] "Unknown tool: bad_tool" rfl,
   (planner_malformation_recovery legacyTools).2.2
     [MentionGate.failure "invalid_plan: Unknown tool: bad_tool"]⟩

/-- C7: can_post fails open before initialization, returning true with no
reason; for an initialized, unpaused gate it returns false with the
monthly_cap_reached reason exactly when the usage percentage is at or
above 100, and returns true with no reason at any usage percentage
strictly below 100; for a positive cap the usage percentage is at or
above 100 exactly when usage has reached the cap. -/
theorem can_post_gate_semantics (s : TierState) :
    (s.is_initialized = false → canPost s = (true, Option.none)) ∧
    (s.is_initialized = true → s.is_paused = false →
      ((canPost s = (false, some "monthly_cap_reached") ↔ getUsagePercent s ≥ 100) ∧
       (getUsagePercent s < 100 → canPost s = (true, Option.none)))) ∧
    (0 < s.project_cap →
      (getUsagePercent s ≥ 100 ↔ s.project_cap ≤ s.project_usage)) := by
  refine ⟨?_, ?_, ?_⟩
  · intro h
    simp [canPost, h]
  · intro hi hp
    constructor
    · constructor
      · intro hc
        by_contra hlt
        rw [not_le] at hlt
        simp [canPost, hi, hp, not_le.mpr hlt] at hc
      · intro hge
        simp [canPost, hi, hp, hge]
    · intro hlt
      simp [canPost, hi, hp, not_le.mpr hlt]
  · intro hcap
    have hc : (0 : ℚ) < (s.project_cap : ℚ) := by exact_mod_cast hcap
    unfold getUsagePercent
    rw [if_neg (not_le.mpr hcap)]
    rw [ge_iff_le, div_mul_eq_mul_div, le_div_iff₀ hc]
    constructor
    · intro h
      have h2 : (s.project_cap : ℚ) ≤ (s.project_usage : ℚ) := by linarith
      exact_mod_cast h2
    · intro h
      have h2 : (s.project_cap : ℚ) ≤ (s.project_usage : ℚ) := by exact_mod_cast h
      linarith

/-- Gate state before initialize has completed. -/
def gateUninit : TierState :=
  ⟨Option.none, PyVal.none, 0, 0, PyVal.none, Option.none, false, false, Option.none⟩

/-- Initialized, unpaused gate at 99.9 percent of a 10000 cap. -/
def gateAlmostFull : TierState :=
  ⟨some "basic", PyVal.none, 10000, 9990, PyVal.none, some 0, true, false, Option.none⟩

/-- Initialized, unpaused gate at exactly 100 percent of a 10000 cap. -/
def gateFull : TierState :=
  ⟨some "basic", PyVal.none, 10000, 10000, PyVal.none, some 0, true, false, Option.none⟩

/-- C7 witness: the gate theorem applied to an uninitialized gate, to a
gate at 99.9 percent usage, and to a gate at exactly 100 percent usage. -/
theorem can_post_gate_semantics_witness :
    canPost gateUninit = (true, Option.none) ∧
    canPost gateAlmostFull = (true, Option.none) ∧
    canPost gateFull = (false, some "monthly_cap_reached") :=
  ⟨(can_post_gate_semantics gateUninit).1 rfl,
   ((can_post_gate_semantics gateAlmostFull).2.1 rfl rfl).2
     (by norm_num [getUsagePercent, gateAlmostFull]),
   ((can_post_gate_semantics gateFull).2.1 rfl rfl).1.mpr
     (by norm_num [getUsagePercent, gateFull])⟩

/-- Prior gate state of a detected basic tier, used by the C8 theorems. -/
def tierBasicState : TierState :=
  ⟨some "basic", PyVal.none, 10000, 5000, PyVal.none, some 0, true, false, Option.none⟩

/-- Usage response whose project_cap field parses but whose project_usage
field is null, so int() raises midway through the schema parse. -/
def badSchemaResp : FetchOutcome :=
  FetchOutcome.http 200 (Except.ok (PyVal.dict
    [("data", PyVal.dict [("project_cap", PyVal.int 50), ("project_usage", PyVal.none)])]))

/-- C8 counterexample: the claim states that any failure other than a 403
leaves all prior gate state, including project_cap, unchanged.  On a 200
response whose project_cap parses but whose project_usage fails int
conversion, detect_tier has already assigned project_cap before the
exception at tier_manager.py line 150, so project_cap changes from 10000
to 50 while tier stays basic and no exception escapes. -/
theorem detect_tier_partial_mutation :
    (detectTier tierBasicState 7 badSchemaResp).1.project_cap = 50 ∧
    tierBasicState.project_cap = 10000 ∧
    (detectTier tierBasicState 7 badSchemaResp).1.tier = some "basic" ∧
    (detectTier tierBasicState 7 badSchemaResp).2 =
      DetectResult.unknownErr "TypeError: int argument must be a number" :=
  ⟨rfl, rfl, rfl, rfl⟩

/-- C8 amended: detect_tier never raises; a network failure, a 429 or any
other 4xx or 5xx status apart from 403, a JSON decode failure, and a
schema failure at the project_cap field all leave the whole gate state
unchanged; a 403 sets the tier to free and changes nothing else; a schema
failure at the project_usage field after a parsed project_cap updates
project_cap alone and leaves tier, project_usage and pause state
unchanged. -/
theorem detect_tier_failure_frame (s : TierState) (now : Nat) :
    (∀ m, detectTier s now (FetchOutcome.fail m) = (s, DetectResult.unknownErr m)) ∧
    (∀ body, detectTier s now (FetchOutcome.http 429 body) =
      (s, DetectResult.unknownErr "HTTPStatusError")) ∧
    (∀ body, detectTier s now (FetchOutcome.http 403 body) =
      ({ s with tier := some "free" }, DetectResult.free403)) ∧
    (∀ m, detectTier s now (FetchOutcome.http 200 (Except.error m)) =
      (s, DetectResult.unknownErr m)) ∧
    (∀ kvs u m, pyGetD kvs "data" (PyVal.dict []) = PyVal.dict u →
      pyToInt (pyGetD u "project_cap" (PyVal.int 0)) = Except.error m →
      detectTier s now (FetchOutcome.http 200 (Except.ok (PyVal.dict kvs))) =
        (s, DetectResult.unknownErr m)) ∧
    (∀ kvs u cap1 m, pyGetD kvs "data" (PyVal.dict []) = PyVal.dict u →
      pyToInt (pyGetD u "project_cap" (PyVal.int 0)) = Except.ok cap1 →
      pyToInt (pyGetD u "project_usage" (PyVal.int 0)) = Except.error m →
      detectTier s now (FetchOutcome.http 200 (Except.ok (PyVal.dict kvs))) =
        ({ s with project_cap := cap1 }, DetectResult.unknownErr m)) := by
  refine ⟨fun m => rfl, fun body => rfl, fun body => rfl, fun m => rfl, ?_, ?_⟩
  · intro kvs u m h1 h2
    simp [detectTier, h1, h2]
  · intro kvs u cap1 m h1 h2 h3
    simp [detectTier, h1, h2, h3]

/-- C8 witness: the frame theorem applied to the basic-tier state, a
network failure, a 429 response, a 403 response, and a schema failure at
each of the two integer fields. -/
theorem detect_tier_failure_frame_witness :
    detectTier tierBasicState 7 (FetchOutcome.fail "ConnectError") =
      (tierBasicState, DetectResult.unknownErr "ConnectError") ∧
    detectTier tierBasicState 7 (FetchOutcome.http 429 (Except.error "not read")) =
      (tierBasicState, DetectResult.unknownErr "HTTPStatusError") ∧
    detectTier tierBasicState 7 (FetchOutcome.http 403 (Except.error "not read")) =
      ({ tierBasicState with tier := some "free" }, DetectResult.free403) ∧
    detectTier tierBasicState 7
        (FetchOutcome.http 200 (Except.ok (PyVal.dict
          [("data", PyVal.dict [("project_cap", PyVal.str "many")])]))) =
      (tierBasicState, DetectResult.unknownErr "ValueError: invalid literal for int") ∧
    detectTier tierBasicState 7 badSchemaResp =
      ({ tierBasicState with project_cap := 50 },
        DetectResult.unknownErr "TypeError: int argument must be a number") :=
  ⟨(detect_tier_failure_frame tierBasicState 7).1 "ConnectError",
   (detect_tier_failure_frame tierBasicState 7).2.1 (Except.error "not read"),
   (detect_tier_failure_frame tierBasicState 7).2.2.1 (Except.error "not read"),
   (detect_tier_failure_frame tierBasicState 7).2.2.2.2.1
     [("data", PyVal.dict [("project_cap", PyVal.str "many")])]
     [("project_cap", PyVal.str "many")] "ValueError: invalid literal for int" rfl rfl,
   (detect_tier_failure_frame tierBasicState 7).2.2.2.2.2
     [("data", PyVal.dict [("project_cap", PyVal.int 50), ("project_usage", PyVal.none)])]
     [("project_cap", PyVal.int 50), ("project_usage", PyVal.none)] 50
     "TypeError: int argument must be a number" rfl rfl rfl⟩

/-- Model response of 281 identical characters, one over the platform
limit. -/
def longModelText : List Char := List.replicate 281 'a'

set_option maxRecDepth 8000 in
/-- C4 counterexample: the claim states that a model response exceeding
280 characters is hard-truncated with an ellipsis marker before the batch
autopost publish.  The finalization at autopost.py line 224 slices to the
first 280 code points with no marker, so the published text differs from
the ellipsis form the claim describes. -/
theorem autopost_truncation_has_no_ellipsis :
    finalizePostText longModelText 0 = List.replicate 280 'a' ∧
    finalizePostText longModelText 0 ≠
      (pyStrip longModelText).take 277 ++ ("...").data := by
  constructor
  · rfl
  · decide

/-- Each fallback tweet stays non-empty after the 280-point slice. -/
theorem fallback_take_ne_nil (pick : Fin 7) :
    (FALLBACK_TWEETS.getD pick.val []).take 280 ≠ [] := by
  fin_cases pick <;> decide

/-- C4 amended: before the batch autopost publish the outgoing text is
trimmed and hard-truncated at 280 code points without an ellipsis marker
(the ellipsis truncation to 277 points plus three dots lives in the
create_post and create_reply tools); a text that is empty after trimming
is replaced by the chosen pre-authored fallback message, the publish call
and the saved record both receive exactly the finalized text, and the
finalized text is never empty. -/
theorem autopost_text_finalization (raw : List Char) (pick : Fin 7) :
    (finalizePostText raw pick).length ≤ 280 ∧
    finalizePostText raw pick ≠ [] ∧
    (pyStrip raw = [] →
      finalizePostText raw pick = (FALLBACK_TWEETS.getD pick.val []).take 280) ∧
    (pyStrip raw ≠ [] → finalizePostText raw pick = (pyStrip raw).take 280) ∧
    (∀ oracle : Nat → Except String String, ∀ tid, oracle 0 = Except.ok tid →
      autopostPublishTail (finalizePostText raw pick) oracle =
        ([finalizePostText raw pick], [finalizePostText raw pick], Except.ok tid)) ∧
    (∀ t : List Char, (toolTruncate t).length ≤ 280 ∧
      (t.length > 280 → toolTruncate t = t.take 277 ++ ("...").data)) := by
  refine ⟨?_, ?_, ?_, ?_, ?_, ?_⟩
  · unfold finalizePostText
    by_cases h : ((pyStrip raw).take 280).isEmpty
    · rw [if_pos h]
      exact List.length_take_le 280 (FALLBACK_TWEETS.getD pick.val [])
    · rw [if_neg h]
      exact List.length_take_le 280 (pyStrip raw)
  · unfold finalizePostText
    by_cases h : ((pyStrip raw).take 280).isEmpty
    · rw [if_pos h]
      exact fallback_take_ne_nil pick
    · rw [if_neg h]
      simpa [List.isEmpty_iff] using h
  · intro h
    simp [finalizePostText, h]
  · intro h
    have h2 : ((pyStrip raw).take 280).isEmpty = false := by
      cases hl : pyStrip raw with
      | nil => exact absurd hl h
      | cons x xs => rfl
    simp [finalizePostText, h2]
  · intro oracle tid h
    simp [autopostPublishTail, h]
  · intro t
    constructor
    · unfold toolTruncate
      by_cases h : t.length > 280
      · rw [if_pos h]
        simp [List.length_take]
      · rw [if_neg h]
        omega
    · intro h
      simp [toolTruncate, h]

/-- C4 witness: the finalization theorem applied to a whitespace-only
model response, to a short non-empty response, and the tool truncation
clause applied to a 281-point text. -/
theorem autopost_text_finalization_witness :
    finalizePostText ("  ").data 0 = (FALLBACK_TWEETS.getD (0 : Fin 7).val []).take 280 ∧
    finalizePostText ("hi").data 0 = (pyStrip ("hi").data).take 280 ∧
    autopostPublishTail (finalizePostText ("  ").data 0) (fun _ => Except.ok "1") =
      ([finalizePostText ("  ").data 0], [finalizePostText ("  ").data 0], Except.ok "1") ∧
    toolTruncate (List.replicate 281 'b') =
      (List.replicate 281 'b').take 277 ++ ("...").data :=
  ⟨(autopost_text_finalization ("  ").data 0).2.2.1 (by decide),
   (autopost_text_finalization ("hi").data 0).2.2.2.1 (by decide),
   (autopost_text_finalization ("  ").data 0).2.2.2.2.1 (fun _ => Except.ok "1") "1" rfl,
   ((autopost_text_finalization ("  ").data 0).2.2.2.2.2 (List.replicate 281 'b')).2
     (by rw [List.length_replicate]; omega)⟩

/-- Publish oracle raising a transient platform error on the first
attempt and succeeding on any later attempt. -/
def transientOracle : Nat → Except String String := fun n =>
  if n == 0 then Except.error "503 Service Unavailable" else Except.ok "42"

/-- C3 counterexample: the claim states that a transient publish failure
is retried a bounded number of times with a fixed delay before the cycle
reports failure.  The code has no retry anywhere: with an oracle whose
first attempt raises transiently and whose second attempt would succeed,
the publish path performs exactly one attempt and the cycle reports
failure with the underlying cause. -/
theorem publish_failure_reported_without_retry :
    autopostPublishAttempts ("hi").data transientOracle = 1 ∧
    (autopostPublishTail ("hi").data transientOracle).2.2 =
      Except.error "503 Service Unavailable" ∧
    transientOracle 1 = Except.ok "42" :=
  ⟨rfl, rfl, rfl⟩

/-- C3 amended: a publish failure is not retried: the publish call is
attempted exactly once, a raised platform error makes the cycle report
failure with the underlying cause and nothing is saved, and the read path
likewise invokes the mention fetch exactly once without retrying. -/
theorem publish_single_attempt (text : List Char)
    (oracle : Nat → Except String String) (e : String)
    (h : oracle 0 = Except.error e) :
    autopostPublishAttempts text oracle = 1 ∧
    autopostPublishTail text oracle = ([text], [], Except.error e) ∧
    ∀ ro : Nat → Except String (List String), (mentionsFetchTail ro).1 = [0] := by
  refine ⟨?_, ?_, fun ro => rfl⟩
  · unfold autopostPublishAttempts autopostPublishTail
    rw [h]
    rfl
  · unfold autopostPublishTail
    rw [h]

/-- C3 witness: the single-attempt theorem applied to the transient
oracle. -/
theorem publish_single_attempt_witness :
    autopostPublishAttempts ("x").data transientOracle = 1 ∧
    autopostPublishTail ("x").data transientOracle =
      ([("x").data], [], Except.error "503 Service Unavailable") ∧
    (mentionsFetchTail (fun _ => Except.error "down")).1 = [0] :=
  ⟨(publish_single_attempt ("x").data transientOracle "503 Service Unavailable" rfl).1,
   (publish_single_attempt ("x").data transientOracle "503 Service Unavailable" rfl).2.1,
   (publish_single_attempt ("x").data transientOracle "503 Service Unavailable" rfl).2.2
     (fun _ => Except.error "down")⟩

/-- Initialized pro-tier gate state used by the C9 theorem. -/
def proTier : TierState :=
  ⟨some "pro", PyVal.none, 1000000, 0, PyVal.none, some 0, true, false, Option.none⟩

/-- Ledger holding fifty same-day replies. -/
def fiftyReplyWorld : ToolWorld :=
  ⟨List.replicate 50 ⟨"reply", ("x").data, true⟩, []⟩

/-- Ledger holding fifty same-day posts. -/
def fiftyPostWorld : ToolWorld :=
  ⟨List.replicate 50 ⟨"post", ("x").data, true⟩, []⟩

/-- C9: the claim states that each publishing tool compares the same-day
count against the daily limit of the current tier.  create_post does, but
create_reply rebinds tier_manager from kwargs at create_reply.py line 98,
where the key never appears because the named parameter absorbed it, so
its limit is always the default 50.  On a pro tier, whose daily reply
limit is 500, create_reply blocks at fifty same-day replies with a
message naming 50 and changes no state, while create_post at fifty
same-day posts proceeds against its tier limit of 500. -/
theorem create_reply_ignores_tier_quota :
    (createReply ("hello").data "99" true (some proTier)
        (Except.ok "7") fiftyReplyWorld).result =
      "Error: Daily reply limit reached (50). Cannot reply." ∧
    (createReply ("hello").data "99" true (some proTier)
        (Except.ok "7") fiftyReplyWorld).world = fiftyReplyWorld ∧
    getDailyLimits proTier = (500, 500) ∧
    countActionsToday fiftyReplyWorld.actions "reply" = 50 ∧
    (createPost ("hello").data (some proTier) (Except.ok "7") fiftyPostWorld).result =
      "Posted successfully! Tweet ID: 7. Image: no. Remaining posts today: 449" :=
  ⟨rfl, rfl, rfl, rfl, rfl⟩

/-- Script whose first tool is not the terminal tool but returns a result
containing the terminal marker. -/
def scriptEarlyMarker : Nat → ScriptStep := fun _ =>
  ⟨"web_search", "Result: the fetched page contains CYCLE_FINISHED in its body"⟩

/-- Script that never chooses the terminal tool and whose results never
contain the terminal marker. -/
def scriptNoFinish : Nat → ScriptStep := fun _ =>
  ⟨"get_mentions", "No new mentions found."⟩

/-- Script that explicitly finishes exactly on the thirtieth iteration. -/
def scriptFinishAt30 : Nat → ScriptStep := fun i =>
  if i == 30 then ⟨"finish_cycle", "CYCLE_FINISHED: done"⟩
  else ⟨"get_mentions", "No new mentions found."⟩

/-- Script that finishes explicitly on the first iteration. -/
def scriptFinishAt1 : Nat → ScriptStep := fun _ =>
  ⟨"finish_cycle", finishCycleTool "done"⟩

/-- C5 counterexample: the claim states that when the model never selects
finish_cycle the loop stops after exactly 30 iterations and returns a
result distinguishing forced termination from an explicit finish.  Both
parts fail on the code: a non-terminal tool whose result merely contains
the CYCLE_FINISHED marker stops the loop after one iteration, and the
result of a run forced to the cap is identical to the result of a run in
which the model explicitly finishes on the thirtieth iteration. -/
theorem forced_cap_claim_fails :
    runLoop scriptEarlyMarker = ⟨true, 0, 0, 1⟩ ∧
    runLoop scriptNoFinish = ⟨true, 0, 0, 30⟩ ∧
    runLoop scriptNoFinish = runLoop scriptFinishAt30 := by
  refine ⟨?_, ?_, ?_⟩ <;> decide

/-- C5 amended: if the model never selects finish_cycle and no tool
result contains the CYCLE_FINISHED marker, the loop stops after exactly
30 iterations with a non-error result whose iterations field is 30; an
explicit finish_cycle on iteration j always terminates the run at or
before j, so the iterations field distinguishes forced termination from
any explicit finish that happens before the cap, though not from one on
the thirtieth iteration itself. -/
theorem forced_cap_termination (script : Nat → ScriptStep) :
    ((∀ i, 1 ≤ i → i ≤ 30 → ¬ stopsAt script i) →
      (runLoop script).iterations = 30 ∧ (runLoop script).success = true) ∧
    (∀ j, 1 ≤ j → (script j).tool = "finish_cycle" →
      (runLoop script).iterations ≤ j) := by
  constructor
  · intro h
    constructor
    · have h2 := runLoopAux_no_stop script 30 0 0 0
        (fun k hk1 hk2 => h k (by omega) (by omega))
      show (runLoopAux script 0 0 0 30).iterations = 30
      omega
    · exact runLoopAux_success script 30 0 0 0
  · intro j hj hfin
    exact runLoopAux_le_stop script 30 0 0 0 j (by omega) (Or.inl hfin)

/-- C5 witness: the amended theorem applied to the finish-free script and
to the script that finishes on the thirtieth iteration. -/
theorem forced_cap_termination_witness :
    (runLoop scriptNoFinish).iterations = 30 ∧
    (runLoop scriptFinishAt30).iterations ≤ 30 :=
  ⟨((forced_cap_termination scriptNoFinish).1
      (fun i h1 h2 => of_decide_eq_false rfl)).1,
   (forced_cap_termination scriptFinishAt30).2 30 (by omega) (by decide)⟩

/-- C10: after executing the tool of iteration i the continuous loop
terminates exactly when that tool was finish_cycle or its result contains
the substring CYCLE_FINISHED or the counter reached the 30-step cap: the
first stopping iteration is where the run ends, a run with no stopping
iteration ends at 30, a run ending before 30 ended on a stopping
iteration, the result of finish_cycle always begins with the
CYCLE_FINISHED marker so contains it, and both a finish_cycle call and a
mere marker-bearing result bound the termination point. -/
theorem loop_termination_characterization (script : Nat → ScriptStep) :
    (∀ i, 1 ≤ i → i ≤ 30 → stopsAt script i →
      (∀ j, 1 ≤ j → j < i → ¬ stopsAt script j) →
      (runLoop script).iterations = i) ∧
    ((∀ i, 1 ≤ i → i ≤ 30 → ¬ stopsAt script i) → (runLoop script).iterations = 30) ∧
    (∀ i, i < 30 → (runLoop script).iterations = i → stopsAt script i) ∧
    (∀ r, strHas (finishCycleTool r) "CYCLE_FINISHED" = true) ∧
    (∀ j, 1 ≤ j → (script j).tool = "finish_cycle" →
      (runLoop script).iterations ≤ j) ∧
    (∀ j, 1 ≤ j → strHas (script j).result "CYCLE_FINISHED" = true →
      (runLoop script).iterations ≤ j) := by
  refine ⟨?_, ?_, ?_, fun r => rfl, ?_, ?_⟩
  · intro i h1 h2 hs hf
    exact runLoopAux_first_stop script 30 0 0 0 i (by omega) (by omega) hs
      (fun k hk1 hk2 => hf k (by omega) hk2)
  · intro h
    have h2 := runLoopAux_no_stop script 30 0 0 0
      (fun k hk1 hk2 => h k (by omega) (by omega))
    show (runLoopAux script 0 0 0 30).iterations = 30
    omega
  · intro i hlt heq
    rcases runLoopAux_iter_or_stop script 30 0 0 0 with h | h
    · have h3 : (runLoop script).iterations = 30 := by
        show (runLoopAux script 0 0 0 30).iterations = 30
        omega
      omega
    · have h4 : stopsAt script (runLoop script).iterations := h
      rw [heq] at h4
      exact h4
  · intro j hj hfin
    exact runLoopAux_le_stop script 30 0 0 0 j (by omega) (Or.inl hfin)
  · intro j hj hmark
    exact runLoopAux_le_stop script 30 0 0 0 j (by omega) (Or.inr hmark)

/-- C10 witness: the characterization applied to an explicit finish on
iteration one, to the finish-free script, to the marker-bearing script,
and to a concrete finish_cycle result. -/
theorem loop_termination_characterization_witness :
    (runLoop scriptFinishAt1).iterations = 1 ∧
    (runLoop scriptNoFinish).iterations = 30 ∧
    stopsAt scriptEarlyMarker 1 ∧
    strHas (finishCycleTool "done") "CYCLE_FINISHED" = true ∧
    (runLoop scriptFinishAt1).iterations ≤ 1 ∧
    (runLoop scriptEarlyMarker).iterations ≤ 1 :=
  ⟨(loop_termination_characterization scriptFinishAt1).1 1 (by omega) (by omega)
     (Or.inl rfl) (fun j h1 h2 => absurd h2 (by omega)),
   (loop_termination_characterization scriptNoFinish).2.1
     (fun i h1 h2 => of_decide_eq_false rfl),
   (loop_termination_characterization scriptEarlyMarker).2.2.1 1 (by omega) (by decide),
   (loop_termination_characterization scriptFinishAt1).2.2.2.1 "done",
   (loop_termination_characterization scriptFinishAt1).2.2.2.2.1 1 (by omega) rfl,
   (loop_termination_characterization scriptEarlyMarker).2.2.2.2.2 1 (by omega)
     (by decide)⟩

end Purple
